import Mathlib

/-!
Shallow embedding of the clinic scheduling application:
the appointment-priority scorer of `all_appointments.py`, the wait-time
predictor of `wait_time_predictor.py`, and the schedule optimizer of
`schedule_optimizer.py`, together with theorems settling the spec claims.

Conventions of the embedding:
  * a calendar date is a `Nat` day index; `day % 7` is its weekday with
    `0` = Monday, so `5 ≤ day % 7` means a weekend, matching Python's
    `date.weekday()`;
  * a time of day is a `Nat`, minutes since midnight; the `.hour`
    attribute of a Python `time` value is `time / 60`;
  * the repository generates integer consultation times
    (`randint` in `data_processor.py`) and integer wait times, so these
    are `Nat`/`Int` here.
-/

/-- Combined date and time value, standing for a Python `datetime`. -/
structure DateTime where
  day : Nat
  time : Nat
  deriving DecidableEq, Repr

/-- One appointment row of the appointments DataFrame (the columns the
embedded functions consult). -/
structure Appointment where
  doctor_id : Nat
  appointment_date : Nat
  appointment_time : Nat
  arrived_early : Bool
  wait_time_minutes : Int
  deriving DecidableEq, Repr

/-- One doctor row of the doctors DataFrame. -/
structure Doctor where
  doctor_id : Nat
  doctor_name : String
  specialty : String
  avg_consultation_time : Nat
  is_available : Bool
  deriving DecidableEq, Repr

/-- Category step of the priority scorer in `all_appointments.py`: the
final `if/elif/else` on the accumulated score. -/
def priority_category (date_score : Int) : String × Int :=
  if date_score ≥ 75 then ("High", date_score)
  else if date_score ≥ 50 then ("Medium", date_score)
  else ("Low", date_score)

/-- Scoring step of `calculate_priority` in `all_appointments.py`:
date-proximity base score, then `+10` for early arrival, `+15` for a wait
over 30 minutes. -/
def priority_score (date_diff : Int) (arrived_early : Bool)
    (wait_time_minutes : Int) : Int :=
  let date_score : Int :=
    if date_diff = 0 then 100
    else if 0 < date_diff ∧ date_diff ≤ 3 then 80
    else if 3 < date_diff ∧ date_diff ≤ 7 then 60
    else if 7 < date_diff ∧ date_diff ≤ 14 then 40
    else if date_diff < 0 then 20
    else 30
  let date_score := if arrived_early then date_score + 10 else date_score
  if wait_time_minutes > 30 then date_score + 15 else date_score

/-- Priority scorer from `all_appointments.py` (`calculate_priority`):
returns (category, score) exactly as the Python closure does. -/
def calculate_priority (date_diff : Int) (arrived_early : Bool)
    (wait_time_minutes : Int) : String × Int :=
  priority_category (priority_score date_diff arrived_early wait_time_minutes)

lemma priority_category_snd (s : Int) : (priority_category s).2 = s := by
  unfold priority_category; split_ifs <;> rfl

lemma priority_category_high (s : Int) :
    (priority_category s).1 = "High" ↔ 75 ≤ s := by
  unfold priority_category
  split_ifs with h1 h2
  · simpa using h1
  · simp only [ge_iff_le] at h1
    simp [h1, show ("Medium" : String) ≠ "High" from by decide]
  · simp only [ge_iff_le] at h1
    simp [h1, show ("Low" : String) ≠ "High" from by decide]

lemma priority_category_medium (s : Int) :
    (priority_category s).1 = "Medium" ↔ 50 ≤ s ∧ s < 75 := by
  unfold priority_category
  split_ifs with h1 h2
  · simp only [ge_iff_le] at h1
    simp [show ("High" : String) ≠ "Medium" from by decide]
    omega
  · simp only [ge_iff_le] at h1 h2
    simp
    omega
  · simp only [ge_iff_le] at h1 h2
    simp [show ("Low" : String) ≠ "Medium" from by decide]
    omega

lemma priority_category_low (s : Int) :
    (priority_category s).1 = "Low" ↔ s < 50 := by
  unfold priority_category
  split_ifs with h1 h2
  · simp only [ge_iff_le] at h1
    simp [show ("High" : String) ≠ "Low" from by decide]
    omega
  · simp only [ge_iff_le] at h1 h2
    simp [show ("Medium" : String) ≠ "Low" from by decide]
    omega
  · simp only [ge_iff_le] at h1 h2
    simp
    omega

lemma priority_score_eq (d : Int) (e : Bool) (w : Int) :
    priority_score d e w =
      (if d = 0 then 100
       else if 0 < d ∧ d ≤ 3 then 80
       else if 3 < d ∧ d ≤ 7 then 60
       else if 7 < d ∧ d ≤ 14 then 40
       else if 14 < d then 30
       else 20)
      + (if e then 10 else 0) + (if w > 30 then 15 else 0) := by
  simp only [priority_score]
  split_ifs <;> omega

/-- C3: the priority scorer is total (it is a Lean function), its score is
the claimed base table plus the claimed additive adjustments, and the
category is determined by the claimed thresholds on the final score. -/
theorem calculate_priority_spec (d : Int) (e : Bool) (w : Int) :
    (calculate_priority d e w).2 =
      (if d = 0 then 100
       else if 0 < d ∧ d ≤ 3 then 80
       else if 3 < d ∧ d ≤ 7 then 60
       else if 7 < d ∧ d ≤ 14 then 40
       else if 14 < d then 30
       else 20)
      + (if e then 10 else 0) + (if w > 30 then 15 else 0) ∧
    ((calculate_priority d e w).1 = "High" ↔ 75 ≤ (calculate_priority d e w).2) ∧
    ((calculate_priority d e w).1 = "Medium" ↔
      50 ≤ (calculate_priority d e w).2 ∧ (calculate_priority d e w).2 < 75) ∧
    ((calculate_priority d e w).1 = "Low" ↔ (calculate_priority d e w).2 < 50) := by
  unfold calculate_priority
  rw [priority_category_snd, priority_score_eq]
  exact ⟨rfl, priority_category_high _, priority_category_medium _,
    priority_category_low _⟩

/-- C4 counterexample: the spec example says `(10, false, 0)` scores 30,
but the code's date-proximity table puts `7 < 10 ≤ 14` at base 40, so the
code returns score 40 (category Low either way). -/
theorem calculate_priority_example_10_counterexample :
    calculate_priority 10 false 0 = ("Low", 40) ∧
    calculate_priority 10 false 0 ≠ ("Low", 30) := by
  decide

/-- C4 (amended): the three concrete scorer evaluations, with the second
corrected to score 40 (still category Low) as the code's table dictates. -/
theorem calculate_priority_examples :
    calculate_priority 0 false 0 = ("High", 100) ∧
    calculate_priority 10 false 0 = ("Low", 40) ∧
    calculate_priority 2 true 35 = ("High", 105) := by
  decide

/-!
Wait-time predictor (`wait_time_predictor.py`).  The fitted
scikit-learn pipeline is abstracted as a function from a merged
appointment/doctor row to `Option Int`: `none` stands for the underlying
`predict` call raising at runtime (e.g. a malformed feature vector, or an
unfitted pipeline, which always raises `NotFittedError`).
-/

/-- A merged row: an appointment left-joined with its doctor (pandas
`how=left` keeps the appointment and fills `none` when no doctor
matches). -/
abbrev Row : Type := Appointment × Option Doctor

/-- Abstracted fitted model: feature row to prediction, `none` = the
underlying library call raises. -/
abbrev Model : Type := Row → Option Int

/-- Predictor state: the `model` attribute (with `fun _ => none` standing
for a constructed-but-unfitted pipeline) and the `model_trained` flag. -/
structure WaitTimePredictor where
  model : Option Model
  model_trained : Bool

/-- Left join of appointments with doctors on `doctor_id`, as pandas
`merge(..., on=doctor_id, how=left)`: every appointment row survives,
paired with each matching doctor, or with `none` if no doctor matches. -/
def mergeLeft (appointments : List Appointment) (doctors : List Doctor) :
    List Row :=
  appointments.flatMap fun a =>
    match doctors.filter (fun d => decide (d.doctor_id = a.doctor_id)) with
    | [] => [(a, none)]
    | ds => ds.map fun d => (a, some d)

namespace WaitTimePredictor

/-- Embedding of `WaitTimePredictor.predict`: default 30 when untrained or
no model is stored; otherwise the model output clamped to be non-negative,
with any runtime error caught and degraded to the default 30. -/
def predict (p : WaitTimePredictor) (features : Row) : Int :=
  match p.model_trained, p.model with
  | false, _ => 30
  | true, none => 30
  | true, some m =>
    match m features with
    | some v => max 0 v
    | none => 30

/-- Outcome of the `model.fit` call inside `train`: it either produces a
fitted model or raises. -/
inductive FitOutcome where
  | ok (m : Model)
  | raises

/-- Embedding of `WaitTimePredictor.train` as a state transition.  The
returned `Option Bool` is the Python return value, `none` meaning an
exception propagated to the caller.  Faithful to the source order: the
`model` attribute is assigned the newly constructed (unfitted) pipeline
before `fit` runs, so an abort during fitting leaves that unfitted
pipeline stored while `model_trained` keeps its previous value. -/
def train (p : WaitTimePredictor) (appointments : List Appointment)
    (doctors : List Doctor) (fit : FitOutcome) :
    WaitTimePredictor × Option Bool :=
  if appointments = [] ∨ doctors = [] then (p, some false)
  else
    let X := mergeLeft appointments doctors
    if X = [] then (p, some false)
    else
      let p1 : WaitTimePredictor :=
        { model := some (fun _ => none), model_trained := p.model_trained }
      match fit with
      | .raises => (p1, none)
      | .ok m => ({ model := some m, model_trained := true }, some true)

/-- Embedding of `WaitTimePredictor.predict_batch`.  Result `none` means
an exception propagated (the source has no try/except here): either the
batched `model.predict` raised, or the predictions column could not be
assigned because its length differs from the filtered frame's. -/
def predict_batch (p : WaitTimePredictor) (current_time : DateTime)
    (appointments : List Appointment) (doctors : List Doctor) :
    Option (List (Appointment × Int)) :=
  match p.model_trained, p.model with
  | false, _ => some (appointments.map fun a => (a, 30))
  | true, none => some (appointments.map fun a => (a, 30))
  | true, some m =>
    let today_appointments := appointments.filter fun a =>
      decide (a.appointment_date = current_time.day ∧
              current_time.time ≤ a.appointment_time)
    if today_appointments = [] then some []
    else
      let merged := mergeLeft today_appointments doctors
      Option.bind (merged.mapM m) fun predictions =>
        if predictions.length = today_appointments.length then
          some (today_appointments.zip (predictions.map fun x => max 0 x))
        else none

end WaitTimePredictor

lemma mergeLeft_ne_nil (a : Appointment) (as : List Appointment)
    (doctors : List Doctor) : mergeLeft (a :: as) doctors ≠ [] := by
  unfold mergeLeft
  rw [List.flatMap_cons]
  intro h
  rw [List.append_eq_nil] at h
  rcases h with ⟨h1, -⟩
  revert h1
  cases doctors.filter (fun d => decide (d.doctor_id = a.doctor_id)) <;> simp

/-- C9: predict is non-negative on every input; it is exactly 30 whenever
no model has been trained (flag unset or nothing stored); and a runtime
prediction error also yields the default 30 instead of propagating. -/
theorem predict_spec (p : WaitTimePredictor) (f : Row) :
    0 ≤ WaitTimePredictor.predict p f ∧
    (p.model_trained = false → WaitTimePredictor.predict p f = 30) ∧
    (p.model = none → WaitTimePredictor.predict p f = 30) ∧
    (∀ m, p.model = some m → m f = none →
      WaitTimePredictor.predict p f = 30) := by
  obtain ⟨mo, mt⟩ := p
  cases mt with
  | false =>
    exact ⟨by norm_num [WaitTimePredictor.predict], fun _ => rfl,
      fun _ => rfl, fun _ _ _ => rfl⟩
  | true =>
    cases mo with
    | none =>
      exact ⟨by norm_num [WaitTimePredictor.predict], fun h => absurd h (by simp),
        fun _ => rfl, fun m2 h2 => absurd h2 (by simp)⟩
    | some m =>
      have hpred : WaitTimePredictor.predict ⟨some m, true⟩ f =
          (match m f with | some v => max 0 v | none => 30) := rfl
      cases hm : m f with
      | none =>
        rw [hpred, hm]
        exact ⟨by norm_num, fun _ => rfl, fun _ => rfl, fun _ _ _ => rfl⟩
      | some v =>
        rw [hpred, hm]
        refine ⟨le_max_left 0 v, fun h => absurd h (by simp),
          fun h => absurd h (by simp), fun m2 h2 hn => ?_⟩
        obtain rfl : m = m2 := Option.some_inj.mp h2
        rw [hm] at hn
        exact absurd hn (by simp)

/-- C9 witness: a freshly instantiated predictor (nothing stored, flag
unset) yields exactly 30, a value that is non-negative. -/
theorem predict_spec_witness :
    WaitTimePredictor.predict ⟨none, false⟩
      (Appointment.mk 1 0 660 false 10, none) = 30 ∧
    0 ≤ WaitTimePredictor.predict ⟨none, false⟩
      (Appointment.mk 1 0 660 false 10, none) := by
  refine ⟨?_, (predict_spec _ _).1⟩
  exact (predict_spec ⟨none, false⟩ (Appointment.mk 1 0 660 false 10, none)).2.1 rfl


/-- C1: with a trained model, every row predict_batch returns came from
the input, is on asOf's calendar date at or after asOf's time, and
carries a non-negative predicted wait time; the result is empty when no
appointment matches; with no trained model, all input rows come back with
the default 30. -/
theorem predict_batch_spec (p : WaitTimePredictor) (t : DateTime)
    (appointments : List Appointment) (doctors : List Doctor) :
    (p.model_trained = false ∨ p.model = none →
      WaitTimePredictor.predict_batch p t appointments doctors =
        some (appointments.map fun a => (a, 30))) ∧
    (p.model_trained = true → p.model ≠ none →
      ∀ res, WaitTimePredictor.predict_batch p t appointments doctors = some res →
        (∀ x ∈ res, x.1 ∈ appointments ∧ x.1.appointment_date = t.day ∧
          t.time ≤ x.1.appointment_time ∧ 0 ≤ x.2) ∧
        ((∀ a ∈ appointments,
            ¬(a.appointment_date = t.day ∧ t.time ≤ a.appointment_time)) →
          res = [])) := by
  obtain ⟨mo, mt⟩ := p
  cases mt with
  | false =>
    exact ⟨fun _ => rfl, fun hmt => by simp_all⟩
  | true =>
    cases mo with
    | none =>
      exact ⟨fun _ => rfl, fun _ hne => absurd rfl hne⟩
    | some m =>
      refine ⟨fun h => by rcases h with h | h <;> simp_all,
        fun _ _ res hres => ?_⟩
      simp only [WaitTimePredictor.predict_batch] at hres
      by_cases hT : appointments.filter (fun a =>
          decide (a.appointment_date = t.day ∧ t.time ≤ a.appointment_time)) = []
      · rw [if_pos hT] at hres
        obtain rfl := (Option.some_inj.mp hres).symm
        exact ⟨fun x hx => absurd hx (List.not_mem_nil x), fun _ => rfl⟩
      · rw [if_neg hT] at hres
        cases hpreds : List.mapM m (mergeLeft (appointments.filter fun a =>
            decide (a.appointment_date = t.day ∧ t.time ≤ a.appointment_time))
            doctors) with
        | none => rw [hpreds] at hres; exact absurd hres (by simp)
        | some preds =>
          rw [hpreds, Option.some_bind] at hres
          split_ifs at hres with hlen
          · obtain rfl := Option.some_inj.mp hres
            constructor
            · rintro ⟨a, b⟩ hx
              obtain ⟨h1, h2⟩ := List.of_mem_zip hx
              rw [List.mem_filter] at h1
              obtain ⟨ha, hcond⟩ := h1
              rw [decide_eq_true_eq] at hcond
              obtain ⟨y, -, hy⟩ := List.mem_map.mp h2
              refine ⟨ha, hcond.1, hcond.2, ?_⟩
              rw [← hy]
              exact le_max_left 0 y
            · intro hall
              refine absurd (List.filter_eq_nil_iff.mpr ?_) hT
              intro a ha
              simpa using hall a ha

/-- C1 witness: a never-trained predictor returns every input row with the
default predicted wait time of 30. -/
theorem predict_batch_spec_witness :
    WaitTimePredictor.predict_batch ⟨none, false⟩ ⟨0, 600⟩
      [Appointment.mk 1 0 660 false 10] [] =
      some [(Appointment.mk 1 0 660 false 10, 30)] := by
  have h := (predict_batch_spec ⟨none, false⟩ ⟨0, 600⟩
    [Appointment.mk 1 0 660 false 10] []).1 (Or.inl rfl)
  simpa using h

/-- C2 counterexample: a predictor holding a usable trained model (every
prediction 50) runs `train` on non-empty data whose `fit` call raises.
The call aborts (returns no value), yet afterwards `predict` yields the
default 30 instead of the old model's 50: the previously stored model did
not survive the failed call, because the source assigns the freshly
constructed unfitted pipeline to `self.model` before fitting it. -/
theorem train_atomicity_counterexample :
    WaitTimePredictor.predict
      ⟨some fun _ => some 50, true⟩ (Appointment.mk 1 0 660 false 10, none) = 50 ∧
    (WaitTimePredictor.train ⟨some fun _ => some 50, true⟩
      [Appointment.mk 1 0 660 false 10]
      [Doctor.mk 1 "A" "Cardiology" 30 true] WaitTimePredictor.FitOutcome.raises).2 = none ∧
    WaitTimePredictor.predict
      (WaitTimePredictor.train ⟨some fun _ => some 50, true⟩
        [Appointment.mk 1 0 660 false 10]
        [Doctor.mk 1 "A" "Cardiology" 30 true] WaitTimePredictor.FitOutcome.raises).1
      (Appointment.mk 1 0 660 false 10, none) = 30 := by
  refine ⟨rfl, ?_, ?_⟩ <;> rfl

/-- C2 (amended): a train call that returns failure (empty inputs) leaves
the predictor state untouched, and a successful fit installs the new
model with the trained flag set; but an abort partway through (the fit
raising on non-empty inputs) leaves the unfitted pipeline stored with the
old flag, after which every predict call degrades to the default 30
rather than reflecting the previously stored model. -/
theorem train_spec (p : WaitTimePredictor) (appointments : List Appointment)
    (doctors : List Doctor) (fit : WaitTimePredictor.FitOutcome) :
    (appointments = [] ∨ doctors = [] →
      WaitTimePredictor.train p appointments doctors fit = (p, some false)) ∧
    (∀ m, fit = WaitTimePredictor.FitOutcome.ok m → appointments ≠ [] → doctors ≠ [] →
      WaitTimePredictor.train p appointments doctors fit =
        (⟨some m, true⟩, some true)) ∧
    (fit = WaitTimePredictor.FitOutcome.raises → appointments ≠ [] → doctors ≠ [] →
      (WaitTimePredictor.train p appointments doctors fit).2 = none ∧
      (WaitTimePredictor.train p appointments doctors fit).1.model_trained =
        p.model_trained ∧
      ∀ f, WaitTimePredictor.predict
        (WaitTimePredictor.train p appointments doctors fit).1 f = 30) := by
  refine ⟨fun h => ?_, fun m hm ha hd => ?_, fun hr ha hd => ?_⟩
  · simp only [WaitTimePredictor.train]
    rw [if_pos h]
  · obtain ⟨a, as, rfl⟩ := List.exists_cons_of_ne_nil ha
    simp only [WaitTimePredictor.train]
    rw [if_neg (by simp [hd]), if_neg (mergeLeft_ne_nil a as doctors), hm]
  · obtain ⟨a, as, rfl⟩ := List.exists_cons_of_ne_nil ha
    have htr : WaitTimePredictor.train p (a :: as) doctors fit =
        (⟨some fun _ => none, p.model_trained⟩, none) := by
      simp only [WaitTimePredictor.train]
      rw [if_neg (by simp [hd]), if_neg (mergeLeft_ne_nil a as doctors), hr]
    rw [htr]
    refine ⟨rfl, rfl, fun f => ?_⟩
    cases hmt : p.model_trained <;>
      simp [WaitTimePredictor.predict]

/-- C2 witness: the amended theorem applied to a concrete trained
predictor and a concrete aborting train call. -/
theorem train_spec_witness :
    WaitTimePredictor.predict
      (WaitTimePredictor.train ⟨some fun _ => some 50, true⟩
        [Appointment.mk 1 0 660 false 10]
        [Doctor.mk 1 "A" "Cardiology" 30 true] WaitTimePredictor.FitOutcome.raises).1
      (Appointment.mk 1 0 660 false 10, none) = 30 :=
  (train_spec ⟨some fun _ => some 50, true⟩ [Appointment.mk 1 0 660 false 10]
    [Doctor.mk 1 "A" "Cardiology" 30 true] WaitTimePredictor.FitOutcome.raises).2.2 rfl
    (List.cons_ne_nil _ _) (List.cons_ne_nil _ _) |>.2.2
    (Appointment.mk 1 0 660 false 10, none)

/-!
Schedule optimizer (`schedule_optimizer.py`).
-/

/-- One optimal slot as built by `calculate_optimal_slots`.  The source
stores the time as the string `hour:minutes_offset`; here the two numeric
components are kept separately. -/
structure Slot where
  doctor_id : Nat
  doctor_name : String
  specialty : String
  date : Nat
  hour : Nat
  minute : Nat
  expected_duration : Nat
  priority : Int
  is_peak_hour : Bool
  deriving DecidableEq, Repr

namespace ScheduleOptimizer

/-- The instance attribute `optimization_window_days`. -/
def optimization_window_days : Nat := 7

/-- The instance attribute `peak_start_hour` (5 PM). -/
def peak_start_hour : Nat := 17

/-- The instance attribute `peak_end_hour` (8 PM). -/
def peak_end_hour : Nat := 20

/-- Embedding of `ScheduleOptimizer.calculate_doctor_backlog`: filter the
doctor's appointments on the current date (0 if none), count the ones at
or after the current time, and map that count through the step table. -/
def calculate_doctor_backlog (doctor_id : Nat) (current_datetime : DateTime)
    (appointments : List Appointment) : Nat :=
  let doctor_appointments := appointments.filter fun a =>
    decide (a.doctor_id = doctor_id ∧ a.appointment_date = current_datetime.day)
  if doctor_appointments = [] then 0
  else
    let remaining_count := (doctor_appointments.filter fun a =>
      decide (current_datetime.time ≤ a.appointment_time)).length
    if remaining_count ≤ 2 then 0
    else if remaining_count ≤ 5 then 1
    else if remaining_count ≤ 8 then 2
    else if remaining_count ≤ 12 then 3
    else if remaining_count ≤ 15 then 4
    else 5

/-- Number of existing bookings of a doctor in a given hour of a given
day: the `busy_hours` dictionary of `calculate_optimal_slots`, read at
one hour. -/
def busy_count (appointments : List Appointment)
    (doctor_id slot_date hour : Nat) : Nat :=
  (appointments.filter fun a =>
    decide (a.doctor_id = doctor_id ∧ a.appointment_date = slot_date)).countP
    fun a => decide (a.appointment_time / 60 = hour)

/-- The slots one available doctor contributes: the two inner loops of
`calculate_optimal_slots` (days of the window, then working hours 9..20,
then the remaining sub-hour slots). -/
def slot_candidates (current_datetime : DateTime)
    (appointments : List Appointment) (doctor : Doctor) : List Slot :=
  let consultation_time := doctor.avg_consultation_time
  let slots_per_hour := max 1 (60 / consultation_time)
  (List.range optimization_window_days).flatMap fun day_offset =>
    let slot_date := current_datetime.day + day_offset
    if 5 ≤ slot_date % 7 then []
    else
      ((List.range 12).map fun i => 9 + i).flatMap fun hour =>
        let current_bookings :=
          busy_count appointments doctor.doctor_id slot_date hour
        if slots_per_hour ≤ current_bookings then []
        else
          let is_peak := decide (peak_start_hour ≤ hour ∧ hour < peak_end_hour)
          let priority : Int :=
            (if is_peak then 100 - (consultation_time : Int) else 50)
            - (calculate_doctor_backlog doctor.doctor_id current_datetime
                appointments : Int) * 10
          (List.range (slots_per_hour - current_bookings)).map fun slot_index =>
            { doctor_id := doctor.doctor_id, doctor_name := doctor.doctor_name,
              specialty := doctor.specialty, date := slot_date, hour := hour,
              minute := (60 / slots_per_hour) * slot_index,
              expected_duration := consultation_time, priority := priority,
              is_peak_hour := is_peak }

/-- Embedding of `ScheduleOptimizer.calculate_optimal_slots`: empty on
empty inputs or no available doctor, otherwise all candidate slots of the
available doctors sorted by descending priority. -/
def calculate_optimal_slots (current_datetime : DateTime)
    (appointments : List Appointment) (doctors : List Doctor) : List Slot :=
  if appointments = [] ∨ doctors = [] then []
  else
    let available_doctors := doctors.filter fun d => d.is_available
    if available_doctors = [] then []
    else
      let optimal_slots :=
        available_doctors.flatMap (slot_candidates current_datetime appointments)
      optimal_slots.mergeSort fun a b => decide (b.priority ≤ a.priority)

end ScheduleOptimizer

lemma slot_candidates_mem (t : DateTime) (appointments : List Appointment)
    (d : Doctor) (s : Slot)
    (hs : s ∈ ScheduleOptimizer.slot_candidates t appointments d) :
    (∃ off, off < 7 ∧ s.date = t.day + off) ∧ s.date % 7 < 5 ∧
    9 ≤ s.hour ∧ s.hour < 21 ∧
    s.doctor_id = d.doctor_id ∧
    s.expected_duration = d.avg_consultation_time ∧
    ScheduleOptimizer.busy_count appointments d.doctor_id s.date s.hour <
      max 1 (60 / d.avg_consultation_time) ∧
    s.priority = (if 17 ≤ s.hour ∧ s.hour < 20
        then 100 - (d.avg_consultation_time : Int) else 50)
      - 10 * (ScheduleOptimizer.calculate_doctor_backlog d.doctor_id t
          appointments : Int) := by
  simp only [ScheduleOptimizer.slot_candidates,
    ScheduleOptimizer.optimization_window_days, List.mem_flatMap,
    List.mem_range, List.mem_map] at hs
  obtain ⟨off, hoff, hs⟩ := hs
  by_cases hwk : 5 ≤ (t.day + off) % 7
  · rw [if_pos hwk] at hs
    exact absurd hs (List.not_mem_nil s)
  · rw [if_neg hwk] at hs
    simp only [List.mem_flatMap, List.mem_map, List.mem_range] at hs
    obtain ⟨hour, ⟨i, hi, rfl⟩, hs⟩ := hs
    by_cases hb : max 1 (60 / d.avg_consultation_time) ≤
        ScheduleOptimizer.busy_count appointments d.doctor_id (t.day + off) (9 + i)
    · rw [if_pos hb] at hs
      exact absurd hs (List.not_mem_nil s)
    · rw [if_neg hb, List.mem_map] at hs
      obtain ⟨j, hj, rfl⟩ := hs
      dsimp only
      refine ⟨⟨off, hoff, rfl⟩, by omega, by omega, by omega, rfl, rfl,
        by omega, ?_⟩
      by_cases hp : 17 ≤ 9 + i ∧ 9 + i < 20
      · simp only [ScheduleOptimizer.peak_start_hour,
          ScheduleOptimizer.peak_end_hour]
        rw [if_pos (by simpa using hp), if_pos hp]
        ring
      · simp only [ScheduleOptimizer.peak_start_hour,
          ScheduleOptimizer.peak_end_hour]
        rw [if_neg (by simpa using hp), if_neg hp]
        ring

lemma pairwise_mergeSort_priority (l : List Slot) :
    (l.mergeSort fun a b => decide (b.priority ≤ a.priority)).Pairwise
      (fun a b => b.priority ≤ a.priority) := by
  have h := @List.sorted_mergeSort Slot
    (fun a b => decide (b.priority ≤ a.priority))
    (fun a b c hab hbc => by
      simp only [decide_eq_true_eq] at hab hbc ⊢
      exact le_trans hbc hab)
    (fun a b => by
      rcases le_total b.priority a.priority with h | h <;> simp [h]) l
  exact h.imp fun hab => by simpa using hab

/-- C5: every slot the optimizer returns lies on a weekday within the
7-day window starting at asOf's date, in a working hour 9..20, for an
available doctor, in an hour whose existing bookings are strictly below
that doctor's slots-per-hour capacity; the result is empty on empty
inputs or when no doctor is available. -/
theorem calculate_optimal_slots_spec (t : DateTime)
    (appointments : List Appointment) (doctors : List Doctor) :
    (∀ s ∈ ScheduleOptimizer.calculate_optimal_slots t appointments doctors,
      (∃ off, off < 7 ∧ s.date = t.day + off) ∧ s.date % 7 < 5 ∧
      9 ≤ s.hour ∧ s.hour < 21 ∧
      (∃ d ∈ doctors, d.is_available = true ∧ s.doctor_id = d.doctor_id ∧
        s.expected_duration = d.avg_consultation_time ∧
        ScheduleOptimizer.busy_count appointments d.doctor_id s.date s.hour <
          max 1 (60 / d.avg_consultation_time))) ∧
    (appointments = [] ∨ doctors = [] →
      ScheduleOptimizer.calculate_optimal_slots t appointments doctors = []) ∧
    (doctors.filter (fun d => d.is_available) = [] →
      ScheduleOptimizer.calculate_optimal_slots t appointments doctors = []) := by
  refine ⟨?_, ?_, ?_⟩
  · intro s hs
    simp only [ScheduleOptimizer.calculate_optimal_slots] at hs
    split_ifs at hs with h1 h2
    · exact absurd hs (List.not_mem_nil s)
    · exact absurd hs (List.not_mem_nil s)
    · rw [List.mem_mergeSort, List.mem_flatMap] at hs
      obtain ⟨d, hd, hsd⟩ := hs
      rw [List.mem_filter] at hd
      obtain ⟨hdmem, hdav⟩ := hd
      obtain ⟨hoff, hwk, hh1, hh2, hid, hdur, hbusy, -⟩ :=
        slot_candidates_mem t appointments d s hsd
      exact ⟨hoff, hwk, hh1, hh2, ⟨d, hdmem, hdav, hid, hdur, hbusy⟩⟩
  · intro h
    simp only [ScheduleOptimizer.calculate_optimal_slots]
    rw [if_pos h]
  · intro h
    simp only [ScheduleOptimizer.calculate_optimal_slots]
    by_cases h1 : appointments = [] ∨ doctors = []
    · rw [if_pos h1]
    · rw [if_neg h1, if_pos h]

/-- C5 witness: with empty inputs the optimizer returns the empty result,
not an error. -/
theorem calculate_optimal_slots_spec_witness :
    ScheduleOptimizer.calculate_optimal_slots ⟨0, 600⟩ [] [] = [] :=
  (calculate_optimal_slots_spec ⟨0, 600⟩ [] []).2.1 (Or.inl rfl)

/-- Step table of the backlog heuristic, as the spec words it: a count of
remaining same-day appointments mapped to a level 0..5. -/
def backlog_step_table (count : Nat) : Nat :=
  if count ≤ 2 then 0
  else if count ≤ 5 then 1
  else if count ≤ 8 then 2
  else if count ≤ 12 then 3
  else if count ≤ 15 then 4
  else 5

lemma calculate_doctor_backlog_eq (did : Nat) (t : DateTime)
    (appointments : List Appointment) :
    ScheduleOptimizer.calculate_doctor_backlog did t appointments =
      backlog_step_table (appointments.filter fun a =>
        decide (a.doctor_id = did ∧ a.appointment_date = t.day ∧
          t.time ≤ a.appointment_time)).length := by
  have hff : (appointments.filter fun a =>
      decide (a.doctor_id = did ∧ a.appointment_date = t.day ∧
        t.time ≤ a.appointment_time)) =
      ((appointments.filter fun a =>
        decide (a.doctor_id = did ∧ a.appointment_date = t.day)).filter
        fun a => decide (t.time ≤ a.appointment_time)) := by
    rw [List.filter_filter]
    refine List.filter_congr fun a _ => ?_
    by_cases h1 : a.doctor_id = did ∧ a.appointment_date = t.day <;>
      by_cases h2 : t.time ≤ a.appointment_time <;>
      simp [h1, h2]
  simp only [ScheduleOptimizer.calculate_doctor_backlog]
  by_cases h : (appointments.filter fun a =>
      decide (a.doctor_id = did ∧ a.appointment_date = t.day)) = []
  · rw [if_pos h, hff, h]
    rfl
  · rw [if_neg h, hff]
    rfl

/-- C6: every returned slot carries priority equal to the peak-dependent
base minus ten times the doctor's backlog level; the returned list is
sorted descending by that priority; and the backlog level is exactly the
count of the doctor's same-day appointments at or after asOf's time
mapped through the fixed step table (an idle doctor gets level 0). -/
theorem calculate_optimal_slots_priority_spec (t : DateTime)
    (appointments : List Appointment) (doctors : List Doctor) :
    (∀ s ∈ ScheduleOptimizer.calculate_optimal_slots t appointments doctors,
      s.priority = (if 17 ≤ s.hour ∧ s.hour < 20
          then 100 - (s.expected_duration : Int) else 50)
        - 10 * (ScheduleOptimizer.calculate_doctor_backlog s.doctor_id t
            appointments : Int)) ∧
    (ScheduleOptimizer.calculate_optimal_slots t appointments doctors).Pairwise
      (fun a b => b.priority ≤ a.priority) ∧
    (∀ did, ScheduleOptimizer.calculate_doctor_backlog did t appointments =
      backlog_step_table (appointments.filter fun a =>
        decide (a.doctor_id = did ∧ a.appointment_date = t.day ∧
          t.time ≤ a.appointment_time)).length) := by
  refine ⟨?_, ?_, fun did => calculate_doctor_backlog_eq did t appointments⟩
  · intro s hs
    simp only [ScheduleOptimizer.calculate_optimal_slots] at hs
    split_ifs at hs with h1 h2
    · exact absurd hs (List.not_mem_nil s)
    · exact absurd hs (List.not_mem_nil s)
    · rw [List.mem_mergeSort, List.mem_flatMap] at hs
      obtain ⟨d, hd, hsd⟩ := hs
      obtain ⟨-, -, -, -, hid, hdur, -, hprio⟩ :=
        slot_candidates_mem t appointments d s hsd
      rw [hprio, hdur, hid]
  · simp only [ScheduleOptimizer.calculate_optimal_slots]
    split_ifs with h1 h2
    · exact List.Pairwise.nil
    · exact List.Pairwise.nil
    · exact pairwise_mergeSort_priority _

/-- C6 witness: the slot at Monday 09:00 for the sample doctor is in the
optimizer's output and the theorem instantiates to give its priority,
50 minus ten times a zero backlog. -/
theorem calculate_optimal_slots_priority_spec_witness :
    (Slot.mk 1 "A" "Cardiology" 0 9 0 120 50 false).priority =
      (if 17 ≤ (Slot.mk 1 "A" "Cardiology" 0 9 0 120 50 false).hour ∧
          (Slot.mk 1 "A" "Cardiology" 0 9 0 120 50 false).hour < 20
        then 100 -
          ((Slot.mk 1 "A" "Cardiology" 0 9 0 120 50 false).expected_duration : Int)
        else 50)
      - 10 * (ScheduleOptimizer.calculate_doctor_backlog
          (Slot.mk 1 "A" "Cardiology" 0 9 0 120 50 false).doctor_id ⟨0, 600⟩
          [Appointment.mk 1 0 660 false 10] : Int) :=
  (calculate_optimal_slots_priority_spec ⟨0, 600⟩
    [Appointment.mk 1 0 660 false 10]
    [Doctor.mk 1 "A" "Cardiology" 120 true]).1
    (Slot.mk 1 "A" "Cardiology" 0 9 0 120 50 false)
    (by
      simp only [ScheduleOptimizer.calculate_optimal_slots]
      rw [if_neg (by simp), if_neg (by decide), List.mem_mergeSort]
      decide)

/-!
Recommendation engine (`ScheduleOptimizer.get_recommendations`).  Each
recommendation string the source builds is represented by a constructor
carrying the data interpolated into the message.
-/

/-- One recommendation message, by originating check. -/
inductive Recommendation where
  | insufficient_data
  | no_appointments
  | overbooked (doctor_name specialty : String) (count : Nat)
  | congestion (upcoming_count : Nat)
  | underutilized (doctor_name specialty : String) (count : Nat)
  | early_arrivals (early total : Nat)
  | load_imbalance (specialty : String)
  | balanced
  deriving DecidableEq, Repr

/-- Keys of a pandas series in order of first appearance (`unique`, and
the index construction of `value_counts`). -/
def dedup_keys {α : Type} [DecidableEq α] (l : List α) : List α :=
  l.foldl (fun acc k => if k ∈ acc then acc else acc ++ [k]) []

/-- Insert a keyed count into a list sorted by descending count. -/
def insert_desc {α : Type} (x : α × Nat) : List (α × Nat) → List (α × Nat)
  | [] => [x]
  | y :: ys => if y.2 < x.2 then x :: y :: ys else y :: insert_desc x ys

/-- Insertion sort by descending count. -/
def sort_desc {α : Type} : List (α × Nat) → List (α × Nat)
  | [] => []
  | x :: xs => insert_desc x (sort_desc xs)

/-- Embedding of pandas `value_counts`: each distinct key with its number
of occurrences, sorted by descending count. -/
def value_counts {α : Type} [DecidableEq α] (l : List α) : List (α × Nat) :=
  sort_desc ((dedup_keys l).map fun k => (k, l.countP fun x => decide (x = k)))

namespace ScheduleOptimizer

/-- Check 1 of `get_recommendations`: doctors whose today-count exceeds
85 percent of the theoretical daily maximum `9*60 / avg_time`; the float
test `count > (540/avg)*0.85` is embedded as the exact rational
comparison `count * avg > 459`.  A doctor id absent from the doctors
frame would make the source's `.iloc[0]` raise; such entries are
skipped here and excluded by hypothesis where it matters. -/
def overbooked_recs (today_appointments : List Appointment)
    (doctors : List Doctor) : List Recommendation :=
  (value_counts (today_appointments.map fun a => a.doctor_id)).flatMap
    fun kc =>
      match doctors.find? (fun d => decide (d.doctor_id = kc.1)) with
      | none => []
      | some doctor_info =>
        if 459 < kc.2 * doctor_info.avg_consultation_time then
          [.overbooked doctor_info.doctor_name doctor_info.specialty kc.2]
        else []

/-- Check 2 of `get_recommendations`: during peak hours, more than 30
appointments of the current day in the coming two hours. -/
def congestion_recs (current_datetime : DateTime)
    (appointments : List Appointment) : List Recommendation :=
  if peak_start_hour ≤ current_datetime.time / 60 ∧
      current_datetime.time / 60 < peak_end_hour then
    let upcoming := appointments.filter fun a =>
      decide (a.appointment_date = current_datetime.day ∧
        current_datetime.time ≤ a.appointment_time ∧
        a.appointment_time < current_datetime.time + 120)
    if 30 < upcoming.length then [.congestion upcoming.length] else []
  else []

/-- Check 3 of `get_recommendations`: available doctors with fewer than 5
appointments today. -/
def underutilized_recs (today_appointments : List Appointment)
    (doctors : List Doctor) : List Recommendation :=
  doctors.flatMap fun d =>
    let c := (today_appointments.filter fun a =>
      decide (a.doctor_id = d.doctor_id)).length
    if c < 5 ∧ d.is_available then [.underutilized d.doctor_name d.specialty c]
    else []

/-- Check 4 of `get_recommendations`: over 40 percent of today's patients
arrived early; the float test `(early/total)*100 > 40` is embedded as the
exact rational comparison `100*early > 40*total`. -/
def early_arrival_recs (today_appointments : List Appointment) :
    List Recommendation :=
  let early := today_appointments.filter fun a => a.arrived_early
  if 40 * today_appointments.length < 100 * early.length then
    [.early_arrivals early.length today_appointments.length]
  else []

/-- Inner join of today's appointments with the doctors frame on
`doctor_id`, keeping the doctor's specialty (the `merge(..., how=inner)`
of check 5). -/
def specialty_join (today_appointments : List Appointment)
    (doctors : List Doctor) : List (Appointment × String) :=
  today_appointments.flatMap fun a =>
    (doctors.filter fun d => decide (d.doctor_id = a.doctor_id)).map
      fun d => (a, d.specialty)

/-- Check 5 of `get_recommendations`: for each specialty with more than
one doctor, flag a load imbalance when the maximum per-doctor
today-count exceeds twice the minimum (counts taken over doctors
appearing in today's joined appointments). -/
def imbalance_recs (today_appointments : List Appointment)
    (doctors : List Doctor) : List Recommendation :=
  (dedup_keys (doctors.map fun d => d.specialty)).flatMap fun s =>
    if 1 < (doctors.filter fun d => decide (d.specialty = s)).length then
      let specialty_appointments :=
        (specialty_join today_appointments doctors).filter
          fun x => decide (x.2 = s)
      if specialty_appointments = [] then []
      else
        let counts : List Nat := (value_counts (specialty_appointments.map
          fun x => x.1.doctor_id)).map fun kc => kc.2
        let max_appointments : Nat := counts.foldl max 0
        let min_appointments : Nat :=
          match counts with
          | [] => 0
          | c :: rest => rest.foldl min c
        if 2 * min_appointments < max_appointments then [.load_imbalance s]
        else []
    else []

/-- The five checks of `get_recommendations` in source order, as the list
of appended findings before the final truncation. -/
def all_checks (current_datetime : DateTime)
    (appointments : List Appointment) (doctors : List Doctor) :
    List Recommendation :=
  let today_appointments := appointments.filter fun a =>
    decide (a.appointment_date = current_datetime.day)
  overbooked_recs today_appointments doctors ++
  congestion_recs current_datetime appointments ++
  underutilized_recs today_appointments doctors ++
  early_arrival_recs today_appointments ++
  imbalance_recs today_appointments doctors

/-- Embedding of `ScheduleOptimizer.get_recommendations`. -/
def get_recommendations (current_datetime : DateTime)
    (appointments : List Appointment) (doctors : List Doctor) :
    List Recommendation :=
  if appointments = [] ∨ doctors = [] then [.insufficient_data]
  else
    let today_appointments := appointments.filter fun a =>
      decide (a.appointment_date = current_datetime.day)
    if today_appointments = [] then [.no_appointments]
    else
      let recommendations := all_checks current_datetime appointments doctors
      if 5 < recommendations.length then recommendations.take 5
      else if recommendations = [] then [.balanced]
      else recommendations

end ScheduleOptimizer

/-- C10: with an empty appointments frame or an empty doctors frame, the
recommendation engine returns exactly the single insufficient-data
finding. -/
theorem get_recommendations_insufficient (t : DateTime)
    (appointments : List Appointment) (doctors : List Doctor)
    (h : appointments = [] ∨ doctors = []) :
    ScheduleOptimizer.get_recommendations t appointments doctors =
      [Recommendation.insufficient_data] := by
  simp only [ScheduleOptimizer.get_recommendations]
  rw [if_pos h]

/-- C10 witness: empty appointments with one doctor on file. -/
theorem get_recommendations_insufficient_witness :
    ScheduleOptimizer.get_recommendations ⟨0, 600⟩ []
      [Doctor.mk 1 "A" "Cardiology" 30 true] =
      [Recommendation.insufficient_data] :=
  get_recommendations_insufficient ⟨0, 600⟩ [] _ (Or.inl rfl)

/-- C8: the engine never returns more than 5 findings; on non-empty
inputs it returns exactly the single no-appointments finding when the
current day has no appointments, the single balanced finding when no
check fires, and otherwise the first at most 5 findings of the fixed
check order, with no global re-ranking. -/
theorem get_recommendations_dispatch (t : DateTime)
    (appointments : List Appointment) (doctors : List Doctor) :
    (ScheduleOptimizer.get_recommendations t appointments doctors).length ≤ 5 ∧
    (appointments ≠ [] → doctors ≠ [] →
      ((appointments.filter fun a => decide (a.appointment_date = t.day)) = [] →
        ScheduleOptimizer.get_recommendations t appointments doctors =
          [Recommendation.no_appointments]) ∧
      ((appointments.filter fun a => decide (a.appointment_date = t.day)) ≠ [] →
        (ScheduleOptimizer.all_checks t appointments doctors = [] →
          ScheduleOptimizer.get_recommendations t appointments doctors =
            [Recommendation.balanced]) ∧
        (ScheduleOptimizer.all_checks t appointments doctors ≠ [] →
          ScheduleOptimizer.get_recommendations t appointments doctors =
            (ScheduleOptimizer.all_checks t appointments doctors).take 5))) := by
  constructor
  · simp only [ScheduleOptimizer.get_recommendations]
    split_ifs with h1 h2 h3 h4
    · simp
    · simp
    · simp [List.length_take]
    · simp
    · omega
  · intro ha hd
    have hc1 : ¬(appointments = [] ∨ doctors = []) := by
      rintro (h | h) <;> [exact ha h; exact hd h]
    refine ⟨fun htoday => ?_, fun htoday =>
      ⟨fun hrecs => ?_, fun hrecs => ?_⟩⟩
    · simp only [ScheduleOptimizer.get_recommendations]
      rw [if_neg hc1, if_pos htoday]
    · simp only [ScheduleOptimizer.get_recommendations]
      rw [if_neg hc1, if_neg htoday, if_neg (by simp [hrecs]), if_pos hrecs]
    · simp only [ScheduleOptimizer.get_recommendations]
      rw [if_neg hc1, if_neg htoday]
      by_cases h5 : 5 < (ScheduleOptimizer.all_checks t appointments doctors).length
      · rw [if_pos h5]
      · rw [if_neg h5, if_neg hrecs]
        exact (List.take_of_length_le (by omega)).symm

/-- C8 witness: one appointment on a different calendar day gives the
single no-appointments finding. -/
theorem get_recommendations_dispatch_witness :
    ScheduleOptimizer.get_recommendations ⟨0, 600⟩
      [Appointment.mk 1 1 660 false 10] [Doctor.mk 1 "A" "Cardiology" 30 true] =
      [Recommendation.no_appointments] :=
  ((get_recommendations_dispatch ⟨0, 600⟩
    [Appointment.mk 1 1 660 false 10]
    [Doctor.mk 1 "A" "Cardiology" 30 true]).2
    (List.cons_ne_nil _ _) (List.cons_ne_nil _ _)).1 (by decide)

/-- Count of a doctor's appointments on the current date, the quantity
the specialty-imbalance check compares per doctor. -/
def todayCount (t : DateTime) (appointments : List Appointment)
    (did : Nat) : Nat :=
  (appointments.filter fun a =>
    decide (a.doctor_id = did ∧ a.appointment_date = t.day)).length

lemma dedup_keys_loop_mem {α : Type} [DecidableEq α] (l acc : List α) (x : α) :
    x ∈ l.foldl (fun acc k => if k ∈ acc then acc else acc ++ [k]) acc ↔
      x ∈ acc ∨ x ∈ l := by
  induction l generalizing acc with
  | nil => simp
  | cons k tl ih =>
    rw [List.foldl_cons, ih]
    by_cases hk : k ∈ acc
    · rw [if_pos hk]
      constructor
      · rintro (h | h)
        · exact Or.inl h
        · exact Or.inr (List.mem_cons_of_mem _ h)
      · rintro (h | h)
        · exact Or.inl h
        · rcases List.mem_cons.mp h with rfl | h
          · exact Or.inl hk
          · exact Or.inr h
    · rw [if_neg hk]
      rw [List.mem_append, List.mem_singleton, List.mem_cons]
      tauto
  
lemma mem_dedup_keys {α : Type} [DecidableEq α] (l : List α) (x : α) :
    x ∈ dedup_keys l ↔ x ∈ l := by
  unfold dedup_keys
  rw [dedup_keys_loop_mem]
  simp

lemma mem_insert_desc {α : Type} (x y : α × Nat) (l : List (α × Nat)) :
    x ∈ insert_desc y l ↔ x = y ∨ x ∈ l := by
  induction l with
  | nil => simp [insert_desc]
  | cons z tl ih =>
    simp only [insert_desc]
    split_ifs
    · simp [List.mem_cons]
    · rw [List.mem_cons, ih, List.mem_cons]
      tauto

lemma mem_sort_desc {α : Type} (x : α × Nat) (l : List (α × Nat)) :
    x ∈ sort_desc l ↔ x ∈ l := by
  induction l with
  | nil => simp [sort_desc]
  | cons y tl ih =>
    simp only [sort_desc]
    rw [mem_insert_desc, ih, List.mem_cons]

lemma mem_value_counts {α : Type} [DecidableEq α] (l : List α) (k : α)
    (hk : k ∈ l) :
    (k, l.countP fun x => decide (x = k)) ∈ value_counts l := by
  unfold value_counts
  rw [mem_sort_desc]
  exact List.mem_map_of_mem _ ((mem_dedup_keys l k).mpr hk)

lemma foldl_max_spec (l : List Nat) (b : Nat) :
    b ≤ l.foldl max b ∧ ∀ a ∈ l, a ≤ l.foldl max b := by
  induction l generalizing b with
  | nil => exact ⟨le_refl b, by simp⟩
  | cons x tl ih =>
    rw [List.foldl_cons]
    obtain ⟨h1, h2⟩ := ih (max b x)
    refine ⟨le_trans (le_max_left b x) h1, ?_⟩
    intro a ha
    rcases List.mem_cons.mp ha with rfl | ha
    · exact le_trans (le_max_right b a) h1
    · exact h2 a ha

lemma foldl_min_spec (l : List Nat) (b : Nat) :
    l.foldl min b ≤ b ∧ ∀ a ∈ l, l.foldl min b ≤ a := by
  induction l generalizing b with
  | nil => exact ⟨le_refl b, by simp⟩
  | cons x tl ih =>
    rw [List.foldl_cons]
    obtain ⟨h1, h2⟩ := ih (min b x)
    refine ⟨le_trans h1 (min_le_left b x), ?_⟩
    intro a ha
    rcases List.mem_cons.mp ha with rfl | ha
    · exact le_trans h1 (min_le_right b a)
    · exact h2 a ha

lemma filter_doctor_unique (doctors : List Doctor)
    (hnodup : (doctors.map fun d => d.doctor_id).Nodup)
    (d : Doctor) (hd : d ∈ doctors) :
    doctors.filter (fun dd => decide (dd.doctor_id = d.doctor_id)) = [d] := by
  induction doctors with
  | nil => cases hd
  | cons d0 tl ih =>
    rw [List.map_cons, List.nodup_cons] at hnodup
    obtain ⟨hnotin, hnd⟩ := hnodup
    rcases List.mem_cons.mp hd with rfl | hd
    · rw [List.filter_cons, if_pos (by simp)]
      have : tl.filter (fun dd => decide (dd.doctor_id = d.doctor_id)) = [] := by
        rw [List.filter_eq_nil_iff]
        intro dd hdd
        simp only [decide_eq_true_eq]
        intro he
        exact hnotin (he ▸ List.mem_map_of_mem _ hdd)
      rw [this]
    · have hne : d0.doctor_id ≠ d.doctor_id := fun he =>
        hnotin (he ▸ List.mem_map_of_mem _ hd)
      rw [List.filter_cons, if_neg (by simpa using hne)]
      exact ih hnd hd

lemma countP_specialty_join (today : List Appointment)
    (doctors : List Doctor) (s : String)
    (hnodup : (doctors.map fun d => d.doctor_id).Nodup)
    (d : Doctor) (hd : d ∈ doctors) (hs : d.specialty = s) :
    ((ScheduleOptimizer.specialty_join today doctors).filter
      (fun x => decide (x.2 = s))).countP
      (fun x => decide (x.1.doctor_id = d.doctor_id)) =
    today.countP (fun a => decide (a.doctor_id = d.doctor_id)) := by
  induction today with
  | nil => rfl
  | cons a tl ih =>
    have hJ : ScheduleOptimizer.specialty_join (a :: tl) doctors =
        ((doctors.filter fun dd => decide (dd.doctor_id = a.doctor_id)).map
          fun dd => (a, dd.specialty)) ++
        ScheduleOptimizer.specialty_join tl doctors := by
      unfold ScheduleOptimizer.specialty_join
      exact List.flatMap_cons a tl _
    rw [hJ, List.filter_append, List.countP_append, ih, List.countP_cons]
    by_cases hcase : a.doctor_id = d.doctor_id
    · rw [hcase, filter_doctor_unique doctors hnodup d hd]
      simp [hs, hcase]
      omega
    · have hzero : (((doctors.filter fun dd =>
          decide (dd.doctor_id = a.doctor_id)).map
          fun dd => (a, dd.specialty)).filter
          (fun x => decide (x.2 = s))).countP
          (fun x => decide (x.1.doctor_id = d.doctor_id)) = 0 := by
        rw [List.countP_eq_zero]
        intro x hx
        rw [List.mem_filter] at hx
        obtain ⟨hx, -⟩ := hx
        obtain ⟨dd, -, rfl⟩ := List.mem_map.mp hx
        simpa using hcase
      rw [hzero]
      simp [hcase]

lemma countP_ids_eq (t : DateTime) (appointments : List Appointment)
    (doctors : List Doctor) (s : String)
    (hnodup : (doctors.map fun d => d.doctor_id).Nodup)
    (d : Doctor) (hd : d ∈ doctors) (hs : d.specialty = s) :
    (((ScheduleOptimizer.specialty_join
        (appointments.filter fun a => decide (a.appointment_date = t.day))
        doctors).filter (fun x => decide (x.2 = s))).map
      (fun x => x.1.doctor_id)).countP
      (fun x => decide (x = d.doctor_id)) =
    todayCount t appointments d.doctor_id := by
  rw [List.countP_map]
  have hcomp : (((fun x => decide (x = d.doctor_id)) ∘
      fun x : Appointment × String => x.1.doctor_id)) =
      fun x : Appointment × String => decide (x.1.doctor_id = d.doctor_id) :=
    rfl
  rw [hcomp, countP_specialty_join _ doctors s hnodup d hd hs]
  unfold todayCount
  rw [← List.countP_eq_length_filter, List.countP_filter]
  refine List.countP_congr fun a _ => ?_
  simp

lemma imbalance_recs_mem (today : List Appointment) (doctors : List Doctor)
    (s : String)
    (hsmem : s ∈ doctors.map fun d => d.specialty)
    (hmany : 1 < (doctors.filter fun d => decide (d.specialty = s)).length)
    (c1 c2 : Nat)
    (h1 : c1 ∈ (value_counts
      (((ScheduleOptimizer.specialty_join today doctors).filter
        (fun x => decide (x.2 = s))).map fun x => x.1.doctor_id)).map
      fun kc => kc.2)
    (h2 : c2 ∈ (value_counts
      (((ScheduleOptimizer.specialty_join today doctors).filter
        (fun x => decide (x.2 = s))).map fun x => x.1.doctor_id)).map
      fun kc => kc.2)
    (hgt : 2 * c2 < c1) :
    Recommendation.load_imbalance s ∈
      ScheduleOptimizer.imbalance_recs today doctors := by
  have hSA : (ScheduleOptimizer.specialty_join today doctors).filter
      (fun x => decide (x.2 = s)) ≠ [] := by
    intro hnil
    rw [hnil] at h1
    simp [value_counts, dedup_keys, sort_desc] at h1
  obtain ⟨c0, rest, hc⟩ := List.exists_cons_of_ne_nil (List.ne_nil_of_mem h1)
  have h1c : c1 ∈ c0 :: rest := hc ▸ h1
  have h2c : c2 ∈ c0 :: rest := hc ▸ h2
  have hmin : rest.foldl min c0 ≤ c2 := by
    rcases List.mem_cons.mp h2c with rfl | hr
    · exact (foldl_min_spec rest c2).1
    · exact (foldl_min_spec rest c0).2 c2 hr
  have hmax : c1 ≤ (c0 :: rest).foldl max 0 := (foldl_max_spec _ 0).2 c1 h1c
  simp only [ScheduleOptimizer.imbalance_recs, List.mem_flatMap]
  refine ⟨s, (mem_dedup_keys _ _).mpr hsmem, ?_⟩
  rw [if_pos hmany, if_neg hSA, hc]
  show Recommendation.load_imbalance s ∈
    (if 2 * rest.foldl min c0 < (c0 :: rest).foldl max 0
     then [Recommendation.load_imbalance s] else [])
  rw [if_pos (by omega)]
  exact List.mem_singleton.mpr rfl

/-- Two same-specialty doctors, both currently unavailable. -/
def twoCardiologists : List Doctor :=
  [Doctor.mk 1 "A" "Cardiology" 30 false, Doctor.mk 2 "B" "Cardiology" 30 false]

/-- The spec's imbalance scenario: 10 appointments for doctor 1 and 3 for
doctor 2, all on day 0. -/
def tenThreeSchedule : List Appointment :=
  ((List.range 10).map fun i => Appointment.mk 1 0 (540 + 10 * i) false 10) ++
  ((List.range 3).map fun i => Appointment.mk 2 0 (540 + 10 * i) false 10)

/-- C7 counterexample: a specialty with two doctors whose today-counts
are 1 and 0.  The maximum (1) exceeds twice the minimum (0) over the
specialty's doctors, yet the engine emits no imbalance finding, because
its minimum is taken only over doctors appearing in today's appointment
rows (here just doctor 1, so max = min = 1). -/
theorem imbalance_counterexample :
    ([Doctor.mk 1 "A" "Cardiology" 30 false,
      Doctor.mk 2 "B" "Cardiology" 30 false].filter fun d =>
        decide (d.specialty = "Cardiology")).length = 2 ∧
    todayCount ⟨0, 600⟩ [Appointment.mk 1 0 660 false 10] 1 = 1 ∧
    todayCount ⟨0, 600⟩ [Appointment.mk 1 0 660 false 10] 2 = 0 ∧
    ScheduleOptimizer.get_recommendations ⟨0, 600⟩
      [Appointment.mk 1 0 660 false 10]
      [Doctor.mk 1 "A" "Cardiology" 30 false,
       Doctor.mk 2 "B" "Cardiology" 30 false] = [Recommendation.balanced] ∧
    Recommendation.load_imbalance "Cardiology" ∉
      ScheduleOptimizer.get_recommendations ⟨0, 600⟩
        [Appointment.mk 1 0 660 false 10]
        [Doctor.mk 1 "A" "Cardiology" 30 false,
         Doctor.mk 2 "B" "Cardiology" 30 false] := by
  decide

/-- C7 (amended): for a specialty with at least two doctors (with
distinct ids), whenever one specialty doctor's today-count exceeds twice
another specialty doctor's positive today-count, the imbalance finding
for that specialty is appended to the engine's findings list (before the
5-item truncation); and in the concrete two-doctor 10-versus-3 scenario
it is in the returned recommendation list. -/
theorem imbalance_spec (t : DateTime) (appointments : List Appointment)
    (doctors : List Doctor) (s : String)
    (hnodup : (doctors.map fun d => d.doctor_id).Nodup)
    (hmany : 1 < (doctors.filter fun d => decide (d.specialty = s)).length)
    (d1 d2 : Doctor) (hd1 : d1 ∈ doctors) (hs1 : d1.specialty = s)
    (hd2 : d2 ∈ doctors) (hs2 : d2.specialty = s)
    (hpos : 0 < todayCount t appointments d2.doctor_id)
    (hgt : 2 * todayCount t appointments d2.doctor_id <
      todayCount t appointments d1.doctor_id) :
    Recommendation.load_imbalance s ∈
      ScheduleOptimizer.all_checks t appointments doctors ∧
    Recommendation.load_imbalance "Cardiology" ∈
      ScheduleOptimizer.get_recommendations ⟨0, 600⟩ tenThreeSchedule
        twoCardiologists := by
  constructor
  · have hin : ∀ d : Doctor, d ∈ doctors → d.specialty = s →
        0 < todayCount t appointments d.doctor_id →
        todayCount t appointments d.doctor_id ∈ (value_counts
          (((ScheduleOptimizer.specialty_join
            (appointments.filter fun a => decide (a.appointment_date = t.day))
            doctors).filter (fun x => decide (x.2 = s))).map
            fun x => x.1.doctor_id)).map (fun kc => kc.2) := by
      intro d hd hs hposd
      have hcnt := countP_ids_eq t appointments doctors s hnodup d hd hs
      have hk : d.doctor_id ∈ (((ScheduleOptimizer.specialty_join
          (appointments.filter fun a => decide (a.appointment_date = t.day))
          doctors).filter (fun x => decide (x.2 = s))).map
          fun x => x.1.doctor_id) := by
        rw [← hcnt] at hposd
        obtain ⟨x, hx, hpx⟩ := List.countP_pos_iff.mp hposd
        rw [decide_eq_true_eq] at hpx
        exact hpx ▸ hx
      have hmem := mem_value_counts _ d.doctor_id hk
      have := List.mem_map_of_mem (fun kc : Nat × Nat => kc.2) hmem
      rw [hcnt] at this
      exact this
    have hpos1 : 0 < todayCount t appointments d1.doctor_id := by omega
    exact List.mem_append_right _
      (imbalance_recs_mem _ doctors s (hs1 ▸ List.mem_map_of_mem _ hd1) hmany
        (todayCount t appointments d1.doctor_id)
        (todayCount t appointments d2.doctor_id)
        (hin d1 hd1 hs1 hpos1) (hin d2 hd2 hs2 hpos) hgt)
  · decide

/-- C7 witness: the amended theorem applied to the two-doctor
10-versus-3 scenario, placing the Cardiology imbalance finding in the
findings list. -/
theorem imbalance_spec_witness :
    Recommendation.load_imbalance "Cardiology" ∈
      ScheduleOptimizer.all_checks ⟨0, 600⟩ tenThreeSchedule
        twoCardiologists :=
  (imbalance_spec ⟨0, 600⟩ tenThreeSchedule twoCardiologists "Cardiology"
    (by decide) (by decide)
    (Doctor.mk 1 "A" "Cardiology" 30 false)
    (Doctor.mk 2 "B" "Cardiology" 30 false)
    (by decide) rfl (by decide) rfl (by decide) (by decide)).1
